import Mathlib

/-!
Verification of the AgentCore memory gateway client
(`agentic_platform/service/memory_gateway/client/memory/agentcore_memory_client.py`).

The development shallowly embeds the client's resource-lifecycle poll loops,
session resolution, event retrieval/normalization and event append logic.
Python dictionaries are modelled as association lists over `PyVal`; fallible
Python code (key errors, type errors, raised backend exceptions) is modelled
in `Except String`.  The remote backend (boto3 `bedrock-agentcore` /
`bedrock-agentcore-control` clients) is modelled as a record of oracle
functions, and every embedded operation additionally returns the list of
backend calls it issued, so that call-count properties can be stated.
-/

/-- Model of a Python value as it appears in backend request/response
dictionaries: strings, datetimes (as an integer timeline where
`datetime(1970,1,1)` is `0`), lists and dictionaries. -/
inductive PyVal where
  | str (s : String)
  | time (t : Int)
  | list (xs : List PyVal)
  | dict (kvs : List (String × PyVal))

/-- A Python dictionary with string keys, modelled as an association list.
Real Python dictionaries have unique keys; nothing below depends on
duplicates. -/
abbrev PyDict := List (String × PyVal)

/-- Dictionary lookup: first binding of the key, if any. -/
def dlookup : PyDict → String → Option PyVal
  | [], _ => none
  | (k, v) :: rest, key => if k = key then some v else dlookup rest key

/-- Python `d[key]`: the value, or a `KeyError` when the key is absent. -/
def dgetE (d : PyDict) (key : String) : Except String PyVal :=
  match dlookup d key with
  | some v => .ok v
  | none => .error ("KeyError: " ++ key)

/-- Removal of every binding of `key` (a Python dictionary holds at most
one, so this is Python `del d[key]` minus the existence check). -/
def eraseKey (d : PyDict) (key : String) : PyDict :=
  d.filter (fun kv => kv.1 != key)

/-- Python `del d[key]`: removes the binding, or raises `KeyError` when the
key is absent. -/
def delKey (d : PyDict) (key : String) : Except String PyDict :=
  match dlookup d key with
  | some _ => .ok (eraseKey d key)
  | none => .error ("KeyError: " ++ key)

/-- Python `xs[i]` on a list value: `IndexError` out of bounds, `TypeError`
on a non-list. -/
def pyListGet (v : PyVal) (i : Nat) : Except String PyVal :=
  match v with
  | .list xs =>
    match xs.get? i with
    | some x => .ok x
    | none => .error "IndexError: list index out of range"
  | _ => .error "TypeError: object is not subscriptable"

/-- Python `v[key]` on a dictionary value: `KeyError` when absent,
`TypeError` on a non-dictionary. -/
def pyDictGet (v : PyVal) (key : String) : Except String PyVal :=
  match v with
  | .dict d => dgetE d key
  | _ => .error ("TypeError: value is not subscriptable by " ++ key)

/-- Python `v == s` for a string literal `s`: equality when `v` is a string,
`False` for any other type (Python equality across types is `False`, not an
error). -/
def pyEqStr (v : PyVal) (s : String) : Bool :=
  match v with
  | .str t => t == s
  | _ => false

/-- Python `a > b` where the code expects datetimes: defined on two `time`
values, a `TypeError` otherwise. -/
def pyGtTime (a b : PyVal) : Except String Bool :=
  match a, b with
  | .time x, .time y => .ok (decide (y < x))
  | _, _ => .error "TypeError: unsupported operand types for comparison"

/-- Boolean test that `needle` is an initial segment of `hay`. -/
def preChars : List Char → List Char → Bool
  | [], _ => true
  | _ :: _, [] => false
  | a :: as, b :: bs => a == b && preChars as bs

/-- Boolean test that `needle` occurs contiguously inside `hay`. -/
def subChars (needle : List Char) : List Char → Bool
  | [] => preChars needle []
  | c :: rest => preChars needle (c :: rest) || subChars needle rest

/-- Python `needle in hay` on strings: contiguous substring test. -/
def strContains (hay needle : String) : Bool :=
  subChars needle.data hay.data

/-- The "not found" test both poll loops apply to a raised exception message
(source lines 351 and 397): `"Memory not found" in str(e) or "does not
exist" in str(e)`. -/
def notFoundish (msg : String) : Bool :=
  strContains msg "Memory not found" || strContains msg "does not exist"

theorem preChars_append (n post : List Char) : preChars n (n ++ post) = true := by
  induction n with
  | nil => rfl
  | cons a as ih => simp [preChars, ih]

theorem subChars_of_pre (n l : List Char) (h : preChars n l = true) :
    subChars n l = true := by
  cases l with
  | nil => simpa [subChars] using h
  | cons c rest => simp [subChars, h]

theorem subChars_cons (n : List Char) (c : Char) (rest : List Char)
    (h : subChars n rest = true) : subChars n (c :: rest) = true := by
  simp [subChars, h]

theorem subChars_append (n pre post : List Char) :
    subChars n (pre ++ (n ++ post)) = true := by
  induction pre with
  | nil => exact subChars_of_pre n (n ++ post) (preChars_append n post)
  | cons c cs ih => exact subChars_cons n c (cs ++ (n ++ post)) ih

theorem strContains_sandwich (pre mid post : String) :
    strContains (pre ++ mid ++ post) mid = true := by
  have h1 : pre ++ mid ++ post = String.mk ((pre ++ mid).data ++ post.data) :=
    String.congr_append (pre ++ mid) post
  have h2 : (pre ++ mid) = String.mk (pre.data ++ mid.data) :=
    String.congr_append pre mid
  have hd : (pre ++ mid ++ post).data = pre.data ++ (mid.data ++ post.data) := by
    rw [h1, h2]
    simp [List.append_assoc]
  unfold strContains
  rw [hd]
  exact subChars_append mid.data pre.data post.data

/-! ## Backend model

The boto3 clients are modelled as a record of oracle functions.  Each oracle
either returns the relevant part of the AWS response (already unwrapped to
the field the source reads, per the response shapes of the AgentCore API)
or raises, modelled as `Except.error` carrying `str(e)`.  Embedded
operations also return the list of calls they issued. -/

/-- Arguments of `agentcore_client.list_sessions` as assembled at source
lines 476-481. -/
structure ListSessionsArgs where
  memoryId : String
  actorId : String
  nextToken : Option String

/-- Arguments of `agentcore_client.create_event`.  `initialize_session`
passes no session id and `create_memory` passes no event timestamp; the
wall-clock `eventTimestamp` is not modelled. -/
structure CreateEventArgs where
  memoryId : String
  sessionId : Option PyVal
  actorId : String
  payload : PyVal

/-- Arguments of `agentcore_client.list_events` as assembled at source
lines 513-521. -/
structure ListEventsArgs where
  memoryId : String
  sessionId : Option PyVal
  actorId : String
  includePayloads : Bool
  maxResults : Nat
  nextToken : Option String

/-- One backend call, recorded for call-count properties. -/
inductive BackendCall where
  | listSessionsCall (args : ListSessionsArgs)
  | createEventCall (args : CreateEventArgs)
  | listEventsCall (args : ListEventsArgs)
  | deleteMemoryCall (memoryId : String)

/-- The remote backend: `list_sessions` yields the `sessionSummaries` list
of the response, `create_event` the `event` dictionary, `list_events` the
`events` list; `delete_memory` yields only an acknowledgement. -/
structure Backend where
  list_sessions : ListSessionsArgs → Except String (List PyDict)
  create_event : CreateEventArgs → Except String PyDict
  list_events : ListEventsArgs → Except String (List PyDict)
  delete_memory : String → Except String Unit

/-- Number of `create_event` (append) calls in a recorded trace. -/
def countCreateEvent (t : List BackendCall) : Nat :=
  (t.filter (fun c => match c with | .createEventCall _ => true | _ => false)).length

/-! ## The poll-to-terminal loop

`_wait_for_memory_provider_creation` (source lines 310-360) and
`_wait_for_memory_provider_deletion` (lines 363-407) share one control
shape: `for attempt in range(1, max_attempts + 1)` runs a status check,
exits on the terminal condition, otherwise sleeps when `attempt <
max_attempts`, and raises `TimeoutError` after the loop.  `pollLoopGo`
embeds that shared shape; the two waits instantiate it with their own
terminal condition and timeout message. -/

/-- Result of one `get_memory` status query: the full response dictionary,
or a raised exception message. -/
inductive GetMemoryResult where
  | ok (resp : PyDict)
  | raised (msg : String)

/-- Outcome of a bounded poll loop, together with how many status checks it
performed and how many times it slept. -/
inductive WaitOutcome (α : Type) where
  | success (value : α) (checks : Nat) (sleeps : Nat)
  | timeout (message : String) (checks : Nat) (sleeps : Nat)

/-- Shared poll loop body.  `remaining` counts the iterations still allowed
(including the current one), `attempt` is the 1-based Python loop counter,
and a sleep happens after a non-terminal check only when further attempts
remain (`attempt < max_attempts`, i.e. `remaining > 1`). -/
def pollLoopGo {α : Type} (poll : Nat → GetMemoryResult)
    (term : GetMemoryResult → Option α) (msg : String) :
    Nat → Nat → Nat → Nat → WaitOutcome α
  | 0, _, checks, sleeps => .timeout msg checks sleeps
  | r + 1, attempt, checks, sleeps =>
    match term (poll attempt) with
    | some v => .success v (checks + 1) sleeps
    | none =>
      pollLoopGo poll term msg r (attempt + 1) (checks + 1)
        (sleeps + if r = 0 then 0 else 1)

/-- Terminal condition of the creation wait (source lines 335-348): the
status query must succeed, its response must carry a `memory` dictionary
whose `status` equals `ACTIVE`; the loop then returns the memory details.
A raised exception — "not found" or otherwise — and a missing or non-active
status all continue the loop (the `except` clause at lines 350-354 only
logs). -/
def createTerminalValue (r : GetMemoryResult) : Option PyVal :=
  match r with
  | .raised _ => none
  | .ok resp =>
    match dlookup resp "memory" with
    | some (.dict details) =>
      match dlookup details "status" with
      | some st => if pyEqStr st "ACTIVE" then some (.dict details) else none
      | none => none
    | _ => none

/-- Terminal condition of the deletion wait (source lines 387-401): a
successful status query means the memory still exists (continue); a raised
exception whose message matches the "not found" test returns `true`; any
other raised exception continues the loop. -/
def deleteTerminalValue (r : GetMemoryResult) : Option Bool :=
  match r with
  | .ok _ => none
  | .raised m => if notFoundish m then some true else none

/-- Timeout message raised at source line 360. -/
def createTimeoutMessage (memory_id : String) : String :=
  "Memory " ++ memory_id ++ " did not become available within the timeout period"

/-- Timeout message raised at source line 407. -/
def deleteTimeoutMessage (memory_id : String) : String :=
  "Memory " ++ memory_id ++ " was not deleted within the timeout period"

/-- Embeds `_wait_for_memory_provider_creation` (source lines 310-360).
`poll` gives the result of the `get_memory` status query on each 1-based
attempt; `delay_seconds` only determines real sleep time, which is not
modelled beyond the sleep count. -/
def wait_for_memory_provider_creation (poll : Nat → GetMemoryResult)
    (memory_id : String) (max_attempts : Nat) (delay_seconds : Nat) :
    WaitOutcome PyVal :=
  let _ := delay_seconds
  pollLoopGo poll createTerminalValue (createTimeoutMessage memory_id)
    max_attempts 1 0 0

/-- Embeds `_wait_for_memory_provider_deletion` (source lines 363-407). -/
def wait_for_memory_provider_deletion (poll : Nat → GetMemoryResult)
    (memory_id : String) (max_attempts : Nat) (delay_seconds : Nat) :
    WaitOutcome Bool :=
  let _ := delay_seconds
  pollLoopGo poll deleteTerminalValue (deleteTimeoutMessage memory_id)
    max_attempts 1 0 0

theorem pollLoopGo_timeout {α : Type} (poll : Nat → GetMemoryResult)
    (term : GetMemoryResult → Option α) (msg : String)
    (h : ∀ i, term (poll i) = none) :
    ∀ R a c s, pollLoopGo poll term msg R a c s =
      .timeout msg (c + R) (s + (R - 1)) := by
  intro R
  induction R with
  | zero => intro a c s; simp [pollLoopGo]
  | succ r ih =>
    intro a c s
    have hs : (s + if r = 0 then 0 else 1) + (r - 1) = s + (r + 1 - 1) := by
      by_cases hr : r = 0
      · subst hr; simp
      · simp only [if_neg hr]; omega
    have hc : (c + 1) + r = c + (r + 1) := by omega
    simp only [pollLoopGo, h a]
    rw [ih (a + 1) (c + 1) (s + if r = 0 then 0 else 1), hs, hc]

theorem pollLoopGo_success {α : Type} (poll : Nat → GetMemoryResult)
    (term : GetMemoryResult → Option α) (msg : String) (v : α) :
    ∀ j R a c s, j + 1 ≤ R →
      (∀ i, a ≤ i → i < a + j → term (poll i) = none) →
      term (poll (a + j)) = some v →
      pollLoopGo poll term msg R a c s = .success v (c + (j + 1)) (s + j) := by
  intro j
  induction j with
  | zero =>
    intro R a c s hR _ hterm
    match R, hR with
    | r + 1, _ =>
      simp only [Nat.add_zero] at hterm
      simp [pollLoopGo, hterm]
  | succ j ih =>
    intro R a c s hR hpre hterm
    match R, hR with
    | r + 1, hR =>
      have hr : j + 1 ≤ r := by omega
      have hrne : ¬ r = 0 := by omega
      have ha : term (poll a) = none := hpre a (Nat.le_refl a) (by omega)
      have hpre2 : ∀ i, a + 1 ≤ i → i < (a + 1) + j → term (poll i) = none := by
        intro i h1 h2
        exact hpre i (by omega) (by omega)
      have hterm2 : term (poll ((a + 1) + j)) = some v := by
        have : (a + 1) + j = a + (j + 1) := by omega
        rw [this]; exact hterm
      simp only [pollLoopGo, ha, if_neg hrne]
      rw [ih r (a + 1) (c + 1) (s + 1) hr hpre2 hterm2]
      have hc : (c + 1) + (j + 1) = c + (j + 1 + 1) := by omega
      have hs : (s + 1) + j = s + (j + 1) := by omega
      rw [hc, hs]

theorem pollLoopGo_congr {α : Type} (poll pollB : Nat → GetMemoryResult)
    (term : GetMemoryResult → Option α) (msg : String)
    (h : ∀ i, poll i = pollB i ∨ (term (poll i) = none ∧ term (pollB i) = none)) :
    ∀ R a c s, pollLoopGo poll term msg R a c s =
      pollLoopGo pollB term msg R a c s := by
  intro R
  induction R with
  | zero => intro a c s; rfl
  | succ r ih =>
    intro a c s
    rcases h a with he | ⟨h1, h2⟩
    · simp only [pollLoopGo, he]
      cases term (pollB a) with
      | some v => rfl
      | none => exact ih (a + 1) (c + 1) (s + if r = 0 then 0 else 1)
    · simp only [pollLoopGo, h1, h2]
      exact ih (a + 1) (c + 1) (s + if r = 0 then 0 else 1)

/-! ## Session resolution, event retrieval and event append

The request/response pydantic models live outside this repository slice
(`agentic_platform.core.models.memory_models` is only imported here), so
their field lists are modelled from the spec (§4.3/§4.4) and from the
constructor calls visible in the source and its tests: a request carries
`user_id`, `session_id`, `limit` and `next_token`, and the same request
object is passed from `get_session_context` into `get_memories` (source
line 508).  In all embedded operations `agentcore_memory_id` stands for the
module-global resource id, taken as already resolved: the lazy resolution
at source lines 469-471 (`_get_agentcore_memory_id`, parameter store plus
provider creation) is outside the claims settled here. -/

/-- One conversational message of a `SessionContext`. -/
structure Message where
  role : String
  content : PyVal

/-- Domain projection built by `initialize_session` (source lines 448-458). -/
structure SessionContext where
  session_id : PyVal
  user_id : PyVal
  messages : List Message

/-- Domain event record built by `create_memory` (source lines 553-556). -/
structure Memory where
  role : PyVal
  content : PyVal

/-- Request shape shared by `get_session_context` and `get_memories`. -/
structure MemoryRequest where
  user_id : String
  session_id : Option PyVal
  limit : Nat
  next_token : Option String

/-- Request of `create_memory` (source lines 536-551). -/
structure CreateMemoryRequest where
  session_id : Option PyVal
  user_id : String
  session_context : SessionContext

/-- Value returned by `get_session_context`: the initialization branches
return a bare `SessionContext` (source lines 488 and 493) while the
resolution branch wraps the event list in a response object (line 509). -/
inductive GSCOutcome where
  | ctx (c : SessionContext)
  | response (results : List PyDict)

/-- The `list_events` arguments `get_memories` assembles at source lines
513-521 from the request and the module-global resource id. -/
def listEventsArgsOf (agentcore_memory_id : String) (req : MemoryRequest) :
    ListEventsArgs :=
  { memoryId := agentcore_memory_id
    sessionId := req.session_id
    actorId := req.user_id
    includePayloads := true
    maxResults := req.limit
    nextToken := req.next_token }

/-- The normalization loop of `get_memories` (source lines 524-528): for
each event, `del evt[memoryId]` then `del evt[actorId]`, appending the
stripped event; a `KeyError` from either delete propagates. -/
def stripEvents : List PyDict → Except String (List PyDict)
  | [] => .ok []
  | e :: rest =>
    match delKey e "memoryId" with
    | .error m => .error m
    | .ok e1 =>
      match delKey e1 "actorId" with
      | .error m => .error m
      | .ok e2 =>
        match stripEvents rest with
        | .error m => .error m
        | .ok tail => .ok (e2 :: tail)

/-- An event with its `memoryId` and `actorId` bindings removed. -/
def stripEvt (e : PyDict) : PyDict :=
  eraseKey (eraseKey e "memoryId") "actorId"

/-- Embeds `get_memories` (source lines 511-529): one `list_events` call,
then the normalization loop over the raw `events` list of the response. -/
def get_memories (backend : Backend) (agentcore_memory_id : String)
    (req : MemoryRequest) : Except String (List PyDict) × List BackendCall :=
  let args := listEventsArgsOf agentcore_memory_id req
  match backend.list_events args with
  | .error m => (.error m, [.listEventsCall args])
  | .ok events => (stripEvents events, [.listEventsCall args])

/-- Fixed text of the initialization event (source line 434). -/
def initText : String := "Initializing new AgentCore memory session."

/-- The payload literal `initialize_session` builds at source lines 431-438. -/
def initPayload : PyVal :=
  .list [.dict [("conversational",
    .dict [("content", .dict [("text", .str initText)]),
           ("role", .str "ASSISTANT")])]]

/-- Embeds `initialize_session` (source lines 429-460): one `create_event`
call with the fixed payload and no session id, then a `SessionContext`
built from the returned event dictionary (`sessionId`, `actorId`) and the
payload text re-read from the payload literal
(`payload[0][conversational][content][text]`, line 455). -/
def initialize_session (backend : Backend) (agentcore_memory_id : String)
    (actor_id : String) : Except String SessionContext × List BackendCall :=
  let args : CreateEventArgs :=
    { memoryId := agentcore_memory_id
      sessionId := none
      actorId := actor_id
      payload := initPayload }
  let r : Except String SessionContext := do
    let ev ← backend.create_event args
    let sid ← dgetE ev "sessionId"
    let aid ← dgetE ev "actorId"
    let p0 ← pyListGet initPayload 0
    let conv ← pyDictGet p0 "conversational"
    let content ← pyDictGet conv "content"
    let txt ← pyDictGet content "text"
    pure { session_id := sid
           user_id := aid
           messages := [{ role := "assistant"
                          content := .list [.dict [("type", .str "text"),
                                                   ("text", txt)]] }] }
  (r, [.createEventCall args])

/-- The most-recent-session scan of `get_session_context` (source lines
496-502): strict `>` against a running maximum initialized to
`datetime(1970,1,1)` (time `0`), reading `createdAt` and then — as spelled
in the source at line 501 — the key `sesssionId` of the winning summary. -/
def selectMostRecentGo : List PyDict → Option PyVal → PyVal →
    Except String (Option PyVal)
  | [], most_recent_session_id, _ => .ok most_recent_session_id
  | session :: rest, mrid, mrtime =>
    match dgetE session "createdAt" with
    | .error m => .error m
    | .ok created =>
      match pyGtTime created mrtime with
      | .error m => .error m
      | .ok true =>
        match dgetE session "sesssionId" with
        | .error m => .error m
        | .ok sid => selectMostRecentGo rest (some sid) created
      | .ok false => selectMostRecentGo rest mrid mrtime

/-- Entry point of the scan, with the initial values of source lines 496-497. -/
def selectMostRecent (summaries : List PyDict) : Except String (Option PyVal) :=
  selectMostRecentGo summaries none (.time 0)

/-- Message of the `UnboundLocalError` Python raises when a function-local
name is read before its first assignment. -/
def unboundLocalMsg (name : String) : String :=
  "UnboundLocalError: cannot access local variable " ++ name ++
    " where it is not associated with a value"

/-- Embeds `get_session_context` (source lines 462-509) for a call with the
module-global resource id already resolved.  When no session id is
supplied, the resolution block lists sessions; a raised
`ResourceNotFoundException` or an empty summary list initializes a new
session; otherwise the scan selects a session id and events are retrieved.
When `list_sessions` raises anything else, the inner `except` at lines
485-488 neither re-raises nor assigns `response`, so the `print` at line 489
reads the unbound local `response`; the resulting `UnboundLocalError` is
what the outer `except` at lines 504-506 re-raises.  Errors from the scan
are re-raised unchanged by the same outer `except`. -/
def get_session_context (backend : Backend) (agentcore_memory_id : String)
    (req : MemoryRequest) : Except String GSCOutcome × List BackendCall :=
  match req.session_id with
  | some _ =>
    let (r, t) := get_memories backend agentcore_memory_id req
    (r.map .response, t)
  | none =>
    let args : ListSessionsArgs :=
      { memoryId := agentcore_memory_id
        actorId := req.user_id
        nextToken := req.next_token }
    match backend.list_sessions args with
    | .error m =>
      if strContains m "ResourceNotFoundException" then
        let (r, t) := initialize_session backend agentcore_memory_id req.user_id
        (r.map .ctx, .listSessionsCall args :: t)
      else
        (.error (unboundLocalMsg "response"), [.listSessionsCall args])
    | .ok summaries =>
      if summaries.length = 0 then
        let (r, t) := initialize_session backend agentcore_memory_id req.user_id
        (r.map .ctx, .listSessionsCall args :: t)
      else
        match selectMostRecent summaries with
        | .error m => (.error m, [.listSessionsCall args])
        | .ok mrid =>
          let (r, t) := get_memories backend agentcore_memory_id
            { req with session_id := mrid }
          (r.map .response, .listSessionsCall args :: t)

/-- Embeds `create_memory` (source lines 536-558): `messages[-1]` raises
`IndexError` on an empty list before any backend call; otherwise one
`create_event` call wraps the newest message, and the acknowledgement is
mapped back through `payload[0][conversational][role]` and
`payload[0][content][text]` (the latter spelled without the
`conversational` level at source line 555). -/
def create_memory (backend : Backend) (agentcore_memory_id : String)
    (req : CreateMemoryRequest) : Except String Memory × List BackendCall :=
  match req.session_context.messages.getLast? with
  | none => (.error "IndexError: list index out of range", [])
  | some newest_msg =>
    let args : CreateEventArgs :=
      { memoryId := agentcore_memory_id
        sessionId := req.session_id
        actorId := req.user_id
        payload := .list [.dict [("conversational",
          .dict [("content", .dict [("text", newest_msg.content)]),
                 ("role", .str newest_msg.role)])]] }
    match backend.create_event args with
    | .error m => (.error m, [.createEventCall args])
    | .ok response =>
      let r : Except String Memory := do
        let payload ← dgetE response "payload"
        let p0 ← pyListGet payload 0
        let conv ← pyDictGet p0 "conversational"
        let role ← pyDictGet conv "role"
        let content ← pyDictGet p0 "content"
        let txt ← pyDictGet content "text"
        pure { role := role, content := txt }
      (r, [.createEventCall args])

/-- Request of `delete_memory_provider`. -/
structure DeleteProviderRequest where
  memory_id : String

/-- Request of `update_memory_provider` (source lines 218-234). -/
structure UpdateProviderRequest where
  memory_id : String
  description : Option String
  event_expiry_duration : Option Int
  memory_strategies : Option PyVal

/-- Embeds `delete_memory_provider` (source lines 187-216).  The assignment
at line 204 makes `agentcore_control_client` a function-local name for the
whole body (no `global` declaration), so the guard at line 203 reads the
local before any assignment and every call raises `UnboundLocalError`
before reaching the `try` block; the local scope is made explicit below,
with the intended body kept in the unreachable branch. -/
def delete_memory_provider (backend : Backend) (req : DeleteProviderRequest) :
    Except String String × List BackendCall :=
  let localControlClient : Option Unit := none
  match localControlClient with
  | none => (.error (unboundLocalMsg "agentcore_control_client"), [])
  | some _ =>
    match backend.delete_memory req.memory_id with
    | .ok _ => (.ok req.memory_id, [.deleteMemoryCall req.memory_id])
    | .error m => (.error m, [.deleteMemoryCall req.memory_id])

/-- Embeds `update_memory_provider` (source lines 218-294).  Lines 236-237
repeat the pattern of lines 203-204: the assignment at line 237 makes
`agentcore_control_client` function-local, the guard at line 236 reads it
before any assignment, and every call raises `UnboundLocalError` before the
`try` block — so neither the pre-update `get_memory` fetch nor any
`update_memory` call is ever issued; the body at lines 239-294 is dead
code. -/
def update_memory_provider (req : UpdateProviderRequest) :
    Except String PyVal × List BackendCall :=
  let _ := req.memory_id
  let localControlClient : Option Unit := none
  match localControlClient with
  | none => (.error (unboundLocalMsg "agentcore_control_client"), [])
  | some _ => (.error (unboundLocalMsg "agentcore_control_client"), [])

/-! ## Dictionary lemmas -/

theorem dlookup_eraseKey_self (d : PyDict) (key : String) :
    dlookup (eraseKey d key) key = none := by
  induction d with
  | nil => rfl
  | cons kv rest ih =>
    obtain ⟨a, v⟩ := kv
    by_cases ha : a = key
    · subst ha
      simpa [eraseKey, List.filter_cons, bne_self_eq_false] using ih
    · have hb : (a != key) = true := by simp [bne_iff_ne, ha]
      simpa [eraseKey, List.filter_cons, hb, dlookup, ha] using ih

theorem dlookup_eraseKey_ne (d : PyDict) (key k : String) (h : k ≠ key) :
    dlookup (eraseKey d key) k = dlookup d k := by
  induction d with
  | nil => rfl
  | cons kv rest ih =>
    obtain ⟨a, v⟩ := kv
    by_cases ha : a = key
    · subst ha
      have hak : ¬ a = k := fun hh => h hh.symm
      simpa [eraseKey, List.filter_cons, bne_self_eq_false, dlookup, hak] using ih
    · have hb : (a != key) = true := by simp [bne_iff_ne, ha]
      by_cases hak : a = k
      · simp [eraseKey, List.filter_cons, hb, dlookup, hak, h]
      · simpa [eraseKey, List.filter_cons, hb, dlookup, hak] using ih

theorem stripEvents_ok (events : List PyDict)
    (h : ∀ e ∈ events,
      (dlookup e "memoryId").isSome ∧ (dlookup e "actorId").isSome) :
    stripEvents events = .ok (events.map stripEvt) := by
  induction events with
  | nil => rfl
  | cons e rest ih =>
    obtain ⟨h1, h2⟩ := h e (by simp)
    obtain ⟨v1, hv1⟩ := Option.isSome_iff_exists.mp h1
    obtain ⟨v2, hv2⟩ := Option.isSome_iff_exists.mp h2
    have hv2e : dlookup (eraseKey e "memoryId") "actorId" = some v2 := by
      rw [dlookup_eraseKey_ne e "memoryId" "actorId" (by decide)]
      exact hv2
    have hrest : stripEvents rest = .ok (rest.map stripEvt) :=
      ih (fun x hx => h x (by simp [hx]))
    simp [stripEvents, delKey, hv1, hv2e, hrest, stripEvt]

/-! ## Claims about the poll loops -/

/-- C2: for every `maxAttempts = n ≥ 1` and `delaySeconds = d`, each poll
loop (poll-to-active for creation, poll-to-absent for deletion) that never
observes its terminal condition performs exactly `n` status checks and
exactly `n - 1` sleeps, then raises a timeout error whose message names the
resource id. -/
theorem claim_C2_poll_timeout (pollC pollD : Nat → GetMemoryResult)
    (memory_id : String) (n dC dD : Nat) (_hn : 1 ≤ n)
    (hC : ∀ i, createTerminalValue (pollC i) = none)
    (hD : ∀ i, deleteTerminalValue (pollD i) = none) :
    wait_for_memory_provider_creation pollC memory_id n dC =
      .timeout (createTimeoutMessage memory_id) n (n - 1)
    ∧ wait_for_memory_provider_deletion pollD memory_id n dD =
      .timeout (deleteTimeoutMessage memory_id) n (n - 1)
    ∧ strContains (createTimeoutMessage memory_id) memory_id = true
    ∧ strContains (deleteTimeoutMessage memory_id) memory_id = true := by
  refine ⟨?_, ?_, ?_, ?_⟩
  · simpa [wait_for_memory_provider_creation] using
      pollLoopGo_timeout pollC createTerminalValue
        (createTimeoutMessage memory_id) hC n 1 0 0
  · simpa [wait_for_memory_provider_deletion] using
      pollLoopGo_timeout pollD deleteTerminalValue
        (deleteTimeoutMessage memory_id) hD n 1 0 0
  · simpa [createTimeoutMessage] using
      strContains_sandwich "Memory " memory_id
        " did not become available within the timeout period"
  · simpa [deleteTimeoutMessage] using
      strContains_sandwich "Memory " memory_id
        " was not deleted within the timeout period"

/-- Poll oracle for the C2 witness: the status query always reports
`CREATING` (never terminal for either loop). -/
def c2Poll : Nat → GetMemoryResult :=
  fun _ => .ok [("memory", PyVal.dict [("status", PyVal.str "CREATING")])]

theorem claim_C2_poll_timeout_witness :
    wait_for_memory_provider_creation c2Poll "m-1" 3 30 =
      .timeout (createTimeoutMessage "m-1") 3 2
    ∧ wait_for_memory_provider_deletion c2Poll "m-1" 3 10 =
      .timeout (deleteTimeoutMessage "m-1") 3 2
    ∧ strContains (createTimeoutMessage "m-1") "m-1" = true
    ∧ strContains (deleteTimeoutMessage "m-1") "m-1" = true :=
  claim_C2_poll_timeout c2Poll c2Poll "m-1" 3 30 10 (by decide)
    (fun _ => rfl) (fun _ => rfl)

/-- C3: a poll loop first observing its terminal condition on the `k`-th
status check (`1 ≤ k ≤ maxAttempts`) returns immediately after that check,
having slept exactly `k - 1` times; in particular the deletion wait returns
`true` after exactly 1 check and 0 sleeps when the very first query raises
"does not exist". -/
theorem claim_C3_poll_first_terminal (pollC pollD : Nat → GetMemoryResult)
    (memory_id : String) (n dC dD k : Nat) (hk1 : 1 ≤ k) (hkn : k ≤ n) :
    (∀ v, (∀ i, 1 ≤ i → i < k → createTerminalValue (pollC i) = none) →
      createTerminalValue (pollC k) = some v →
      wait_for_memory_provider_creation pollC memory_id n dC =
        .success v k (k - 1))
    ∧ (∀ v, (∀ i, 1 ≤ i → i < k → deleteTerminalValue (pollD i) = none) →
      deleteTerminalValue (pollD k) = some v →
      wait_for_memory_provider_deletion pollD memory_id n dD =
        .success v k (k - 1))
    ∧ wait_for_memory_provider_deletion
        (fun _ => .raised "Memory m-123 does not exist") "m-123" 20 10 =
        .success true 1 0 := by
  have hone : 1 + (k - 1) = k := by omega
  have hsucc : k - 1 + 1 = k := by omega
  have hR : (k - 1) + 1 ≤ n := by omega
  refine ⟨?_, ?_, ?_⟩
  · intro v hpre hterm
    have hpre2 : ∀ i, 1 ≤ i → i < 1 + (k - 1) →
        createTerminalValue (pollC i) = none := by
      intro i h1 h2; exact hpre i h1 (by omega)
    have hterm2 : createTerminalValue (pollC (1 + (k - 1))) = some v := by
      rw [hone]; exact hterm
    have := pollLoopGo_success pollC createTerminalValue
      (createTimeoutMessage memory_id) v (k - 1) n 1 0 0 hR hpre2 hterm2
    simpa [wait_for_memory_provider_creation, hsucc] using this
  · intro v hpre hterm
    have hpre2 : ∀ i, 1 ≤ i → i < 1 + (k - 1) →
        deleteTerminalValue (pollD i) = none := by
      intro i h1 h2; exact hpre i h1 (by omega)
    have hterm2 : deleteTerminalValue (pollD (1 + (k - 1))) = some v := by
      rw [hone]; exact hterm
    have := pollLoopGo_success pollD deleteTerminalValue
      (deleteTimeoutMessage memory_id) v (k - 1) n 1 0 0 hR hpre2 hterm2
    simpa [wait_for_memory_provider_deletion, hsucc] using this
  · rfl

/-- Poll oracle for the C3 witness: `CREATING` on attempt 1, `ACTIVE` from
attempt 2 on. -/
def c3Poll : Nat → GetMemoryResult :=
  fun i =>
    if i = 1 then .ok [("memory", PyVal.dict [("status", PyVal.str "CREATING")])]
    else .ok [("memory", PyVal.dict [("status", PyVal.str "ACTIVE")])]

theorem claim_C3_poll_first_terminal_witness :
    wait_for_memory_provider_creation c3Poll "m-1" 3 30 =
      .success (PyVal.dict [("status", PyVal.str "ACTIVE")]) 2 1 :=
  (claim_C3_poll_first_terminal c3Poll c3Poll "m-1" 3 30 10 2
      (by decide) (by decide)).1
    (PyVal.dict [("status", PyVal.str "ACTIVE")])
    (fun i h1 h2 => by
      have : i = 1 := by omega
      subst this; rfl)
    rfl

/-- C4: during create-polling, a status query raising a "not found" error
is handled identically to a non-terminal status (the loop continues), and
any other raised error also does not abort the loop but consumes one
attempt: any two poll sequences that differ only at non-terminal results
drive the loop to the same outcome, and every raised error is
non-terminal. -/
theorem claim_C4_create_poll_error_tolerance (poll pollB : Nat → GetMemoryResult)
    (memory_id : String) (n d : Nat)
    (h : ∀ i, poll i = pollB i ∨
      (createTerminalValue (poll i) = none ∧ createTerminalValue (pollB i) = none)) :
    wait_for_memory_provider_creation poll memory_id n d =
      wait_for_memory_provider_creation pollB memory_id n d
    ∧ (∀ m, createTerminalValue (.raised m) = none) := by
  constructor
  · exact pollLoopGo_congr poll pollB createTerminalValue
      (createTimeoutMessage memory_id) h n 1 0 0
  · intro m; rfl

/-- Poll oracle for the C4 witness: a "not found" error on attempt 1, then
`ACTIVE`. -/
def c4PollA : Nat → GetMemoryResult :=
  fun i =>
    if i = 1 then .raised "Memory not found"
    else .ok [("memory", PyVal.dict [("status", PyVal.str "ACTIVE")])]

/-- Poll oracle for the C4 witness: a non-terminal `CREATING` status on
attempt 1, then `ACTIVE`. -/
def c4PollB : Nat → GetMemoryResult :=
  fun i =>
    if i = 1 then .ok [("memory", PyVal.dict [("status", PyVal.str "CREATING")])]
    else .ok [("memory", PyVal.dict [("status", PyVal.str "ACTIVE")])]

theorem claim_C4_create_poll_error_tolerance_witness :
    wait_for_memory_provider_creation c4PollA "m-1" 3 30 =
      wait_for_memory_provider_creation c4PollB "m-1" 3 30
    ∧ (∀ m, createTerminalValue (.raised m) = none) :=
  claim_C4_create_poll_error_tolerance c4PollA c4PollB "m-1" 3 30
    (fun i => by
      by_cases hi : i = 1
      · subst hi; exact Or.inr ⟨rfl, rfl⟩
      · exact Or.inl (by simp [c4PollA, c4PollB, hi]))

/-! ## Claims about retrieval, resolution and append -/

/-- C5: for every backend `list_events` response whose events each carry
the `memoryId` and `actorId` keys, `get_memories` returns the stripped
events in backend order and length, each event unchanged except for the
removal of those two keys. -/
theorem claim_C5_event_normalization (backend : Backend)
    (agentcore_memory_id : String) (req : MemoryRequest) (events : List PyDict)
    (hresp : backend.list_events (listEventsArgsOf agentcore_memory_id req) =
      .ok events)
    (hkeys : ∀ e ∈ events,
      (dlookup e "memoryId").isSome ∧ (dlookup e "actorId").isSome) :
    get_memories backend agentcore_memory_id req =
      (.ok (events.map stripEvt),
        [.listEventsCall (listEventsArgsOf agentcore_memory_id req)])
    ∧ (events.map stripEvt).length = events.length
    ∧ ∀ e, dlookup (stripEvt e) "memoryId" = none
        ∧ dlookup (stripEvt e) "actorId" = none
        ∧ ∀ k, k ≠ "memoryId" → k ≠ "actorId" →
            dlookup (stripEvt e) k = dlookup e k := by
  refine ⟨?_, List.length_map events stripEvt, ?_⟩
  · simp [get_memories, hresp, stripEvents_ok events hkeys]
  · intro e
    refine ⟨?_, ?_, ?_⟩
    · rw [stripEvt, dlookup_eraseKey_ne _ "actorId" "memoryId" (by decide)]
      exact dlookup_eraseKey_self e "memoryId"
    · exact dlookup_eraseKey_self _ "actorId"
    · intro k hk1 hk2
      rw [stripEvt, dlookup_eraseKey_ne _ "actorId" k hk2,
        dlookup_eraseKey_ne _ "memoryId" k hk1]

/-- Backend for the C5 witness: two events, each carrying `memoryId`,
`actorId` and a payload field. -/
def c5Backend : Backend :=
  { list_sessions := fun _ => .error "unused"
    create_event := fun _ => .error "unused"
    list_events := fun _ => .ok
      [[("memoryId", .str "mem-1"), ("actorId", .str "u1"),
        ("eventId", .str "e1")],
       [("eventId", .str "e2"), ("memoryId", .str "mem-1"),
        ("actorId", .str "u1")]]
    delete_memory := fun _ => .error "unused" }

/-- Request for the C5 witness. -/
def c5Request : MemoryRequest :=
  { user_id := "u1", session_id := some (.str "s1"), limit := 10,
    next_token := none }

theorem claim_C5_event_normalization_witness :
    get_memories c5Backend "mem-1" c5Request =
      (.ok ([[("memoryId", PyVal.str "mem-1"), ("actorId", PyVal.str "u1"),
              ("eventId", PyVal.str "e1")],
             [("eventId", PyVal.str "e2"), ("memoryId", PyVal.str "mem-1"),
              ("actorId", PyVal.str "u1")]].map stripEvt),
        [.listEventsCall (listEventsArgsOf "mem-1" c5Request)]) :=
  (claim_C5_event_normalization c5Backend "mem-1" c5Request
    [[("memoryId", .str "mem-1"), ("actorId", .str "u1"),
      ("eventId", .str "e1")],
     [("eventId", .str "e2"), ("memoryId", .str "mem-1"),
      ("actorId", .str "u1")]]
    rfl
    (by intro e he; fin_cases he <;> exact ⟨rfl, rfl⟩)).1

/-- Evaluation of `initialize_session` under the AgentCore API contract
that `create_event` echoes the actor id in the returned event. -/
theorem initialize_session_ok (backend : Backend) (mid actor : String)
    (ev : PyDict) (sid : PyVal)
    (hev : backend.create_event
      { memoryId := mid, sessionId := none, actorId := actor,
        payload := initPayload } = .ok ev)
    (hsid : dlookup ev "sessionId" = some sid)
    (haid : dlookup ev "actorId" = some (.str actor)) :
    initialize_session backend mid actor =
      (.ok { session_id := sid
             user_id := .str actor
             messages := [{ role := "assistant"
                            content := .list [.dict [("type", .str "text"),
                                                     ("text", .str initText)]] }] },
       [.createEventCall { memoryId := mid, sessionId := none, actorId := actor,
                           payload := initPayload }]) := by
  unfold initialize_session
  simp only [bind, Except.bind]
  rw [hev]
  simp only [dgetE, hsid, haid]
  rfl

/-- C6: when session listing reports the actor as not found, or returns
zero sessions, `get_session_context` issues exactly one append
(`create_event`) call and returns a fresh context whose user id is the
requested actor id and whose message list is exactly one assistant message
carrying the fixed initialization text. -/
theorem claim_C6_fresh_session (backend : Backend) (agentcore_memory_id : String)
    (req : MemoryRequest) (ev : PyDict) (sid : PyVal)
    (hs : req.session_id = none)
    (hlist : backend.list_sessions
        { memoryId := agentcore_memory_id, actorId := req.user_id,
          nextToken := req.next_token } = .ok []
      ∨ ∃ m, backend.list_sessions
          { memoryId := agentcore_memory_id, actorId := req.user_id,
            nextToken := req.next_token } = .error m
          ∧ strContains m "ResourceNotFoundException" = true)
    (hev : backend.create_event
      { memoryId := agentcore_memory_id, sessionId := none,
        actorId := req.user_id, payload := initPayload } = .ok ev)
    (hsid : dlookup ev "sessionId" = some sid)
    (haid : dlookup ev "actorId" = some (.str req.user_id)) :
    ∃ t, get_session_context backend agentcore_memory_id req =
      (.ok (.ctx { session_id := sid
                   user_id := .str req.user_id
                   messages := [{ role := "assistant"
                                  content := .list [.dict [("type", .str "text"),
                                                           ("text", .str initText)]] }] }),
        t)
      ∧ countCreateEvent t = 1 := by
  have hinit := initialize_session_ok backend agentcore_memory_id req.user_id
    ev sid hev hsid haid
  refine ⟨[.listSessionsCall
      { memoryId := agentcore_memory_id, actorId := req.user_id,
        nextToken := req.next_token },
    .createEventCall
      { memoryId := agentcore_memory_id, sessionId := none,
        actorId := req.user_id, payload := initPayload }], ?_, rfl⟩
  rcases hlist with hempty | ⟨m, herr, hrnfe⟩
  · simp [get_session_context, hs, hempty, hinit, Except.map]
  · simp [get_session_context, hs, herr, hrnfe, hinit, Except.map]

/-- Backend for the C6 witness: no sessions for the actor, and an append
that returns a fresh event for the actor. -/
def c6Backend : Backend :=
  { list_sessions := fun _ => .ok []
    create_event := fun _ => .ok
      [("sessionId", .str "s-new"), ("actorId", .str "u1"),
       ("eventTimestamp", .time 100)]
    list_events := fun _ => .error "unused"
    delete_memory := fun _ => .error "unused" }

/-- Request for the C6 witness: actor `u1`, no session id. -/
def c6Request : MemoryRequest :=
  { user_id := "u1", session_id := none, limit := 10, next_token := none }

theorem claim_C6_fresh_session_witness :
    ∃ t, get_session_context c6Backend "mem-1" c6Request =
      (.ok (.ctx { session_id := PyVal.str "s-new"
                   user_id := PyVal.str "u1"
                   messages := [{ role := "assistant"
                                  content := .list [.dict [("type", .str "text"),
                                                           ("text", .str initText)]] }] }),
        t)
      ∧ countCreateEvent t = 1 :=
  claim_C6_fresh_session c6Backend "mem-1" c6Request
    [("sessionId", .str "s-new"), ("actorId", .str "u1"),
     ("eventTimestamp", .time 100)]
    (PyVal.str "s-new") rfl (Or.inl rfl) rfl rfl rfl

/-- Backend for the C1 evaluation: one session summary, keyed — as the
AgentCore `list_sessions` API keys it — `sessionId` and `createdAt`. -/
def c1Backend : Backend :=
  { list_sessions := fun _ =>
      .ok [[("sessionId", .str "s1"), ("createdAt", .time 5)]]
    create_event := fun _ => .error "unused"
    list_events := fun _ => .error "unused"
    delete_memory := fun _ => .error "unused" }

/-- Request for the C1 evaluation: actor `u1`, no session id. -/
def c1Request : MemoryRequest :=
  { user_id := "u1", session_id := none, limit := 10, next_token := none }

/-- C1 fails on the code: for a backend reporting one session whose summary
carries the correctly spelled `sessionId` key (with the maximal
`createdAt`), `get_session_context` does not retrieve events for that
session — the scan at source line 501 reads the misspelled key
`sesssionId`, so the call raises `KeyError` (re-raised unchanged by the
outer handler) and issues no `list_events` call at all. -/
theorem claim_C1_session_selection_keyerror :
    dlookup [("sessionId", PyVal.str "s1"), ("createdAt", PyVal.time 5)]
      "sessionId" = some (PyVal.str "s1")
    ∧ get_session_context c1Backend "mem-1" c1Request =
      (.error "KeyError: sesssionId",
        [.listSessionsCall
          { memoryId := "mem-1", actorId := "u1", nextToken := none }]) :=
  ⟨rfl, rfl⟩

/-- Backend for the C9 evaluation: session listing raises an error that is
not a not-found condition. -/
def c9Backend : Backend :=
  { list_sessions := fun _ =>
      .error "AccessDeniedException: user is not authorized to perform ListSessions"
    create_event := fun _ => .error "unused"
    list_events := fun _ => .error "unused"
    delete_memory := fun _ => .error "unused" }

/-- Request for the C9 evaluation. -/
def c9Request : MemoryRequest :=
  { user_id := "u1", session_id := none, limit := 10, next_token := none }

/-- C9 fails on the code: when `list_sessions` raises a non-not-found
error, the inner `except` at source lines 485-488 swallows it without
re-raising, line 489 then reads the unbound local `response`, and the
caller receives the replacement `UnboundLocalError` — not the original
backend error. -/
theorem claim_C9_listing_error_masked :
    get_session_context c9Backend "mem-1" c9Request =
      (.error (unboundLocalMsg "response"),
        [.listSessionsCall
          { memoryId := "mem-1", actorId := "u1", nextToken := none }])
    ∧ unboundLocalMsg "response" ≠
      "AccessDeniedException: user is not authorized to perform ListSessions" :=
  ⟨rfl, by decide⟩

/-- C10: a `create_memory` request whose session context has no messages
fails with the unguarded `messages[-1]` index before issuing any backend
append call. -/
theorem claim_C10_empty_messages (backend : Backend)
    (agentcore_memory_id : String) (req : CreateMemoryRequest)
    (h : req.session_context.messages = []) :
    create_memory backend agentcore_memory_id req =
      (.error "IndexError: list index out of range", []) := by
  unfold create_memory
  rw [h]
  rfl

/-- Backend for the C10 witness. -/
def c10Backend : Backend :=
  { list_sessions := fun _ => .error "unused"
    create_event := fun _ => .ok [("sessionId", .str "s1")]
    list_events := fun _ => .error "unused"
    delete_memory := fun _ => .error "unused" }

/-- Request for the C10 witness: an empty message list. -/
def c10Request : CreateMemoryRequest :=
  { session_id := some (.str "s1")
    user_id := "u1"
    session_context := { session_id := .str "s1", user_id := .str "u1",
                         messages := [] } }

theorem claim_C10_empty_messages_witness :
    create_memory c10Backend "mem-1" c10Request =
      (.error "IndexError: list index out of range", []) :=
  claim_C10_empty_messages c10Backend "mem-1" c10Request rfl

/-- C7 fails on the code: a no-optional-fields update request never
receives the pre-update resource details — `update_memory_provider` reads
the function-local `agentcore_control_client` before its conditional
assignment (source lines 236-237) and raises `UnboundLocalError` on every
call, before even the pre-update `get_memory` fetch; no update call is
issued, but no details are returned either. -/
theorem claim_C7_update_unbound_local :
    update_memory_provider
      { memory_id := "m-1", description := none,
        event_expiry_duration := none, memory_strategies := none } =
      (.error (unboundLocalMsg "agentcore_control_client"), []) :=
  rfl

/-- Backend for the C8 evaluation: the delete call itself would succeed. -/
def c8Backend : Backend :=
  { list_sessions := fun _ => .error "unused"
    create_event := fun _ => .error "unused"
    list_events := fun _ => .error "unused"
    delete_memory := fun _ => .ok () }

/-- C8 fails on the code: `delete_memory_provider` raises
`UnboundLocalError` at the client guard (source lines 203-204) on every
call, before issuing the backend delete call — even against a backend whose
delete would succeed, the requested id is never returned and no delete call
is recorded. -/
theorem claim_C8_delete_unbound_local :
    delete_memory_provider c8Backend { memory_id := "m-123" } =
      (.error (unboundLocalMsg "agentcore_control_client"), []) :=
  rfl
